import Mathlib

/-!
Shallow embedding of the HubSpot chatbot pipeline from `main.py` of the
HubspotChat repository (class `HubSpotChatbot`): the query interpreter,
the API request builder, the CRM fetcher and the response formatter.

Modelling conventions:
  - Python dictionary values appearing in CRM records are modelled by
    `PyVal` (a JSON string, a JSON number, or null).  Python float values
    are modelled as IEEE-754 binary64 values (`PyFloat`: sign, 53-bit
    magnitude and binary exponent, plus signed infinities and nan), with
    string conversion and addition rounding to nearest with ties to even
    exactly as CPython does, and currency formatting rounding the exact
    stored binary value exactly as the format specifier `,.2f` does.
  - Exceptions are modelled by `Option`: a function returns `Option.none`
    exactly when the corresponding Python code raises.
  - The two external calls (the OpenAI chat completion inside
    `interpret_query`, and the HTTP GET inside `fetch_hubspot_data`) are
    modelled by an `Except` parameter carrying the outcome of the call:
    `Except.ok` is a successful reply already parsed into the shape the
    Python code reads, `Except.error` is any raised transport, service or
    JSON-decoding failure together with its message.
  - The interpretation dictionary returned by `json.loads` is modelled by
    `QueryIntent`, whose fields are all `Option`: `Option.none` means the
    key is absent from the dictionary (the shape given in section 3 of the
    specification; the claims only exercise replies of this shape).
-/

/-- An IEEE-754 binary64 value, the representation CPython uses for
`float`.  `finite neg mag exp` denotes `(-1) ^ neg * mag * 2 ^ exp` in
canonical form: either `2 ^ 52 ≤ mag < 2 ^ 53` (normal), or
`exp = -1074` and `mag < 2 ^ 52` (subnormal), or `mag = 0` and `exp = 0`
(a signed zero).  Infinities keep their sign; `nan` can only arise from
adding opposite infinities. -/
inductive PyFloat where
  | finite (neg : Bool) (mag : Nat) (exp : Int)
  | inf (neg : Bool)
  | nan
deriving DecidableEq, Repr

/-- The float value of the Python integer `0`. -/
def PyFloat.zero : PyFloat := PyFloat.finite false 0 0

/-- Ten to a natural power. -/
def pow10 (k : Nat) : Nat := 10 ^ k

/-- Quotient of natural numbers rounded to the nearest integer with ties
to even, the rounding of IEEE-754 round-to-nearest and of the float
formatting routine of CPython. -/
def halfEvenDivNat (n d : Nat) : Nat :=
  let q := n / d
  let r := n % d
  if 2 * r < d then q else if d < 2 * r then q + 1 else if q % 2 = 0 then q else q + 1

/-- Number of binary digits of a natural number (fuel-based). -/
def bitlenAux : Nat → Nat → Nat
  | 0, _ => 0
  | f + 1, n => if n = 0 then 0 else bitlenAux f (n / 2) + 1

/-- Number of binary digits of a natural number. -/
def bitlen (n : Nat) : Nat := bitlenAux n n

/-- The quantity `A / D / 2 ^ e` rounded to the nearest natural number
with ties to even, computed exactly. -/
def scaledRound (A D : Nat) (e : Int) : Nat :=
  if 0 ≤ e then halfEvenDivNat A (D * 2 ^ e.toNat)
  else halfEvenDivNat (A * 2 ^ (-e).toNat) D

/-- Starting below the target binade, raise the exponent until the
rounded significand fits below `2 ^ 53`; each step recomputes the
rounding from the exact operands, so no double rounding occurs. -/
def normUp : Nat → Nat → Nat → Int → Nat × Int
  | 0, A, D, e => (scaledRound A D e, e)
  | f + 1, A, D, e =>
      let r := scaledRound A D e
      if r < 2 ^ 53 then (r, e) else normUp f A D (e + 1)

/-- The binary64 value nearest to the positive rational `A / D` (ties to
even), with the given sign: the correctly rounded result of CPython
string-to-float conversion and, applied to an exact sum, of float
addition.  The exponent never drops below the subnormal floor `-1074`
(values rounding to zero there give a signed zero); a rounded value at or
above `2 ^ 1024` overflows to an infinity. -/
def fpFiniteOfRat (neg : Bool) (A D : Nat) : PyFloat :=
  let lo : Int := (bitlen A : Int) - (bitlen D : Int) - 55
  let start : Int := if lo < -1074 then -1074 else lo
  let p := normUp 80 A D start
  if p.1 = 0 then PyFloat.finite neg 0 0
  else if 971 < p.2 then PyFloat.inf neg
  else PyFloat.finite neg p.1 p.2

/-- IEEE-754 binary64 addition, as CPython float addition performs it:
the exact sum is formed and rounded once to nearest with ties to even.
An exact zero sum is `+0` unless both operands carry a negative sign;
opposite infinities give `nan`. -/
def PyFloat.add (x y : PyFloat) : PyFloat :=
  match x, y with
  | .nan, _ => .nan
  | _, .nan => .nan
  | .inf s1, .inf s2 => if s1 = s2 then .inf s1 else .nan
  | .inf s1, .finite _ _ _ => .inf s1
  | .finite _ _ _, .inf s2 => .inf s2
  | .finite n1 m1 e1, .finite n2 m2 e2 =>
      let e := if e1 ≤ e2 then e1 else e2
      let M1 : Int := (if n1 then -(m1 : Int) else (m1 : Int)) * ((2 ^ (e1 - e).toNat : Nat) : Int)
      let M2 : Int := (if n2 then -(m2 : Int) else (m2 : Int)) * ((2 ^ (e2 - e).toNat : Nat) : Int)
      let M := M1 + M2
      if M = 0 then PyFloat.finite (n1 && n2) 0 0
      else if 0 ≤ e then fpFiniteOfRat (decide (M < 0)) (M.natAbs * 2 ^ e.toNat) 1
      else fpFiniteOfRat (decide (M < 0)) M.natAbs (2 ^ (-e).toNat)

/-- A Python value stored in a CRM record property or an interpretation
field: a string, a number, or `None`. -/
inductive PyVal where
  | str : String → PyVal
  | num : PyFloat → PyVal
  | null : PyVal
deriving DecidableEq, Repr

/-- Numeric value of a run of decimal digit characters. -/
def digitsVal (l : List Char) : Nat :=
  l.foldl (fun acc c => acc * 10 + (c.toNat - 48)) 0

/-- Models the Python builtin `float` applied to a string, on the plain
decimal fragment of its grammar: an optional sign, then digits with an
optional decimal point (`"100.50"`, `"49.5"`, `"1."`, `".5"`, `"0"`).
The decimal value is rounded to the nearest binary64 value, with
overflow to an infinity, underflow to a signed zero and the sign of a
zero literal preserved, exactly as CPython converts.  Exponents,
`inf`/`nan` keywords, surrounding whitespace and embedded underscores
are not modelled; none of the claims exercises them.  `Option.none`
models a raised `ValueError`. -/
def parseFloat (s : String) : Option PyFloat :=
  let cs := s.data
  let sr : Bool × List Char :=
    match cs with
    | '-' :: rest => (true, rest)
    | '+' :: rest => (false, rest)
    | _ => (false, cs)
  let neg := sr.1
  let body := sr.2
  let intPart := body.takeWhile Char.isDigit
  let rest := body.dropWhile Char.isDigit
  match rest with
  | [] =>
      if intPart.isEmpty then Option.none
      else
        let A := digitsVal intPart
        some (if A = 0 then PyFloat.finite neg 0 0 else fpFiniteOfRat neg A 1)
  | '.' :: frac =>
      if frac.all Char.isDigit && !(intPart.isEmpty && frac.isEmpty) then
        let A := digitsVal intPart * pow10 frac.length + digitsVal frac
        some (if A = 0 then PyFloat.finite neg 0 0
              else fpFiniteOfRat neg A (pow10 frac.length))
      else Option.none
  | _ => Option.none

/-- Models `float(v)` on a `PyVal`: strings are parsed, numbers pass
through, `float(None)` raises `TypeError` (hence `Option.none`). -/
def pyFloat : PyVal → Option PyFloat
  | .str s => parseFloat s
  | .num q => some q
  | .null => Option.none

/-- Python truthiness of a `PyVal` (`None`, `""`, `0` and `-0.0` are
falsy; infinities and `nan` are truthy). -/
def pyTruthy : PyVal → Bool
  | .str s => !s.isEmpty
  | .num (.finite _ m _) => decide (m ≠ 0)
  | .num _ => true
  | .null => false

/-- Drop trailing decimal zeros of a mantissa and scale pair, used only
for the best-effort display of numeric record values. -/
def stripZeros : Int → Nat → Int × Nat
  | m, 0 => (m, 0)
  | m, k + 1 => if m % 10 = 0 then stripZeros (m / 10) k else (m, k + 1)

/-- A decimal numeral left-padded with zeros to a given width. -/
def natDigitsPad (w n : Nat) : String :=
  let s := toString n
  String.mk (List.replicate (w - s.length) '0') ++ s

/-- Best-effort model of Python `str` on a float value: the exact decimal
expansion of the stored binary value (every binary64 value has a finite
one).  CPython prints the shortest decimal form that round-trips to the
same value; the two denote the same float, and no claim depends on this
rendering — it only keeps the record display functions total. -/
def pyNumRepr (x : PyFloat) : String :=
  match x with
  | .nan => "nan"
  | .inf s => (if s then "-" else "") ++ "inf"
  | .finite neg m e =>
      let sign := if neg then "-" else ""
      if 0 ≤ e then sign ++ toString (m * 2 ^ e.toNat) ++ ".0"
      else
        let k := (-e).toNat
        let ip := m / 2 ^ k
        let fr := m % 2 ^ k
        if fr = 0 then sign ++ toString ip ++ ".0"
        else
          let p := stripZeros (Int.ofNat (fr * 5 ^ k)) k
          sign ++ toString ip ++ "." ++ natDigitsPad p.2 p.1.natAbs

/-- Models the Python conversion of a value to text inside an f-string
(`str(None)` is `"None"`). -/
def pyStr : PyVal → String
  | .str s => s
  | .num q => pyNumRepr q
  | .null => "None"

/-- Left-pad a two-digit cents field. -/
def pad2 (n : Nat) : String := if n < 10 then "0" ++ toString n else toString n

/-- Insert a comma after every three characters of a reversed digit list
when more digits remain. -/
def revGroup3 : List Char → List Char
  | a :: b :: c :: d :: rest => a :: b :: c :: ',' :: revGroup3 (d :: rest)
  | l => l

/-- Group the digits of a decimal numeral in threes with commas, from the
right, as the Python format specifier `,` does. -/
def commaGroup (s : String) : String :=
  String.mk (revGroup3 s.data.reverse).reverse

/-- Models the Python format specifier `,.2f`: the exact binary value is
rounded to a whole number of cents with ties to even — so `"2.675"`,
stored as a value just below 2.675, renders `2.67`, and `"0.005"`,
stored just above 0.005, renders `0.01` — then printed with two decimal
places and thousands separators.  Infinities and `nan` print as CPython
formats them. -/
def fmtCommas2 (x : PyFloat) : String :=
  match x with
  | .nan => "nan"
  | .inf s => (if s then "-" else "") ++ "inf"
  | .finite neg m e =>
      let c : Nat := if 0 ≤ e then m * 100 * 2 ^ e.toNat
                     else halfEvenDivNat (m * 100) (2 ^ (-e).toNat)
      (if neg then "-" else "") ++ commaGroup (toString (c / 100)) ++ "." ++ pad2 (c % 100)

/-- A CRM record: `main.py` reads only its `properties` mapping
(`result.get("properties", {})`); a record with no `properties` key is
modelled by an empty association list. -/
structure Rec where
  properties : List (String × PyVal)
deriving DecidableEq, Repr

/-- A result set as read by the formatter: `data.get("results", [])` and
the optional `error` key set by the fetcher (line 207 of `main.py`). -/
structure ResultSet where
  results : List Rec
  error : Option String
deriving DecidableEq, Repr

/-- The interpretation dictionary produced by `json.loads` in
`interpret_query`.  Every field is optional because the language model may
omit any key; `Option.none` models an absent key. -/
structure QueryIntent where
  object_type : Option String
  filters : Option (List (String × String))
  properties : Option (List String)
  limit : Option Int
  summary_type : Option String
deriving DecidableEq, Repr

/-- One entry of `self.available_endpoints` (lines 73 to 92). -/
structure EndpointInfo where
  endpoint : String
  description : String
  properties : List String
  filters : List String
deriving DecidableEq, Repr

/-- The `deals` entry of the endpoint registry. -/
def dealsEndpoint : EndpointInfo :=
  ⟨"/crm/v3/objects/deals", "Fetch deals data",
   ["dealname", "amount", "dealstage", "closedate", "pipeline", "hubspot_owner_id"],
   ["dealstage", "pipeline", "amount"]⟩

/-- The `contacts` entry of the endpoint registry. -/
def contactsEndpoint : EndpointInfo :=
  ⟨"/crm/v3/objects/contacts", "Fetch contacts data",
   ["firstname", "lastname", "email", "phone", "company", "jobtitle"],
   ["email", "company"]⟩

/-- The `companies` entry of the endpoint registry. -/
def companiesEndpoint : EndpointInfo :=
  ⟨"/crm/v3/objects/companies", "Fetch companies data",
   ["name", "domain", "industry", "city", "state", "country", "numberofemployees"],
   ["industry", "city", "state"]⟩

/-- `self.available_endpoints`, in declaration order. -/
def available_endpoints : List (String × EndpointInfo) :=
  [("deals", dealsEndpoint), ("contacts", contactsEndpoint), ("companies", companiesEndpoint)]

/-- `self.base_url` (line 70). -/
def base_url : String := "https://api.hubapi.com"

/-- `self.deal_stages` (lines 95 to 103), in declaration order. -/
def deal_stages : List (String × String) :=
  [("appointmentscheduled", "Appointment Scheduled"),
   ("qualifiedtobuy", "Qualified to Buy"),
   ("presentationscheduled", "Presentation Scheduled"),
   ("decisionmakerboughtin", "Decision Maker Bought-In"),
   ("contractsent", "Contract Sent"),
   ("closedwon", "Closed Won"),
   ("closedlost", "Closed Lost")]

/-- Models the Python substring test `a in b` on lists of characters. -/
def containsSub (needle : List Char) : List Char → Bool
  | [] => needle.isEmpty
  | c :: rest => needle.isPrefixOf (c :: rest) || containsSub needle rest

/-- Models the Python substring test `a in b` on strings. -/
def strIn (a b : String) : Bool := containsSub a.data b.data

/-- Models the Python method `str.lower` (ASCII lowering, character by
character; all stage labels are ASCII). -/
def strLower (s : String) : String := String.mk (s.data.map Char.toLower)

/-- The first stage pair whose label matches the lowercased free text, in
declaration order: `stage_name.lower() in value.lower() or value.lower()
in stage_name.lower()` (line 171 of `main.py`). -/
def stageMatch (t : String) : Option (String × String) :=
  deal_stages.find? (fun p => strIn (strLower p.2) t || strIn t (strLower p.2))

/-- The dealstage filter value translation of `build_api_request` (lines
168 to 173): the internal key of the first matching stage pair, or the
original text unchanged when no pair matches. -/
def resolveStage (value : String) : String :=
  match stageMatch (strLower value) with
  | some p => p.1
  | Option.none => value

/-- The stage display translation of `format_response` (lines 242 to 243):
`if stage in self.deal_stages: stage = self.deal_stages[stage]`. -/
def stageLabel (stage : String) : String :=
  (deal_stages.lookup stage).getD stage

/-- JSON string escaping of one character, as `json.dumps` performs it. -/
def jsonEscapeChar (c : Char) : String :=
  if c = '"' then "\\\""
  else if c = '\\' then "\\\\"
  else if c = '\n' then "\\n"
  else if c = '\t' then "\\t"
  else if c = '\r' then "\\r"
  else if c.toNat < 32 then
    "\\u00" ++ String.mk [Char.ofNat (if c.toNat / 16 < 10 then 48 + c.toNat / 16 else 87 + c.toNat / 16),
                          Char.ofNat (if c.toNat % 16 < 10 then 48 + c.toNat % 16 else 87 + c.toNat % 16)]
  else String.singleton c

/-- JSON string escaping, as `json.dumps` performs it on the filter keys
and values. -/
def jsonEscape (s : String) : String := String.join (s.data.map jsonEscapeChar)

/-- Serialization of one filter group holding a single equality filter,
with the default `json.dumps` separators (lines 175 to 181). -/
def filterGroupJson (k v : String) : String :=
  "\x7b\"filters\": [\x7b\"propertyName\": \"" ++ jsonEscape k ++
    "\", \"operator\": \"EQ\", \"value\": \"" ++ jsonEscape v ++ "\"\x7d]\x7d"

/-- The query parameters of the built request: `limit`, `properties`, and
the optional serialized `filterGroups` payload. -/
structure ApiParams where
  limit : Int
  properties : String
  filterGroups : Option String
deriving DecidableEq, Repr

/-- The value returned by `build_api_request`: URL, query parameters and
headers. -/
structure ApiRequest where
  url : String
  params : ApiParams
  headers : List (String × String)
deriving DecidableEq, Repr

/-- Translation of `HubSpotChatbot.build_api_request` (lines 148 to 193).
The bearer credential is the explicit first argument in place of
`self.hubspot_api_key`. -/
def build_api_request (hubspot_api_key : String) (interpretation : QueryIntent) : ApiRequest :=
  let object_type := interpretation.object_type.getD "deals"
  let endpoint_info := (available_endpoints.lookup object_type).getD dealsEndpoint
  let url := base_url ++ endpoint_info.endpoint
  let limit := min (interpretation.limit.getD 10) 100
  let properties := String.intercalate "," (interpretation.properties.getD (endpoint_info.properties.take 3))
  let filters := interpretation.filters.getD []
  let filter_groups := filters.map (fun kv =>
    let value := if kv.1 = "dealstage" ∧ object_type = "deals" then resolveStage kv.2 else kv.2
    filterGroupJson kv.1 value)
  let filterGroupsParam :=
    if filters.isEmpty then Option.none
    else some ("[" ++ String.intercalate ", " filter_groups ++ "]")
  { url := url
    params := { limit := limit, properties := properties, filterGroups := filterGroupsParam }
    headers := [("Authorization", "Bearer " ++ hubspot_api_key),
                ("Content-Type", "application/json")] }

/-- The deterministic fallback interpretation returned on any failure of
the language model call (lines 140 to 146). -/
def fallback_intent : QueryIntent :=
  { object_type := some "deals"
    filters := some []
    properties := some ["dealname", "amount"]
    limit := some 10
    summary_type := some "list" }

/-- Translation of `HubSpotChatbot.interpret_query` (lines 105 to 146).
The external chat completion together with `json.loads` is modelled by the
`reply` parameter: `Except.ok` carries the parsed reply dictionary,
`Except.error` any raised service, connection or JSON-decoding failure.
The Python `try` block catches every exception and returns the fallback
interpretation; on success the parsed dictionary is returned verbatim. -/
def interpret_query (reply : Except String QueryIntent) : QueryIntent :=
  match reply with
  | .ok j => j
  | .error _ => fallback_intent

/-- Translation of `HubSpotChatbot.fetch_hubspot_data` (lines 195 to 207).
The HTTP round trip is modelled by the `transport` parameter:
`Except.ok` carries the decoded JSON payload read as a result set,
`Except.error` a raised `requests.exceptions.RequestException` (network
failure or non-2xx status after `raise_for_status`) with its message. -/
def fetch_hubspot_data (transport : Except String ResultSet) : ResultSet :=
  match transport with
  | .ok d => d
  | .error e => { results := [], error := some e }

/-- The error line of `format_response` (line 212). -/
def errorLine (e : String) : String := "❌ Sorry, I encountered an error: " ++ e

/-- The count line of `format_response` (line 223). -/
def countLine (object_type : String) (n : Nat) : String :=
  "📊 Total " ++ object_type ++ ": **" ++ toString n ++ "**"

/-- The total line of `format_response` (line 227). -/
def totalLine (t : PyFloat) (n : Nat) : String :=
  "💰 Total deal value: **$" ++ fmtCommas2 t ++ "** across " ++ toString n ++ " deals"

/-- The list header of `format_response` (line 230); the f-string carries
a trailing newline. -/
def listHeader (object_type : String) (n : Nat) : String :=
  "📋 I found **" ++ toString n ++ " " ++ object_type ++ "**:\n"

/-- The trailing omission note of `format_response` (line 285). -/
def moreNote (k : Nat) : String :=
  "\n_...and " ++ toString k ++ " more results._"

/-- One summand of the total computation (line 226):
`float(r.get("properties", {}).get("amount", 0) or 0)`.  The `.get`
default is the integer `0`; `or 0` maps every falsy value (`None`, the
empty string, zero) to `0`; `float` then raises on a truthy non-numeric
string, modelled by `Option.none`. -/
def amountTerm (r : Rec) : Option PyFloat :=
  let v := (r.properties.lookup "amount").getD (PyVal.num PyFloat.zero)
  pyFloat (if pyTruthy v then v else PyVal.num PyFloat.zero)

/-- The running sum of line 226 from a given accumulator: `sum` adds the
converted amounts to the accumulator left to right — the association
matters, since float addition is not associative — and raises at the
first non-convertible amount. -/
def totalAmountFrom (acc : PyFloat) : List Rec → Option PyFloat
  | [] => some acc
  | r :: rs =>
      match amountTerm r with
      | Option.none => Option.none
      | some q => totalAmountFrom (acc.add q) rs

/-- The generator-sum of line 226 over the whole result list, starting
from the integer `0` as `sum` does. -/
def totalAmount (results : List Rec) : Option PyFloat :=
  totalAmountFrom PyFloat.zero results

/-- The `closedate` value read by the deals list renderer, with the `.get`
default `"N/A"` (line 239). -/
def closedateOf (r : Rec) : PyVal :=
  (r.properties.lookup "closedate").getD (PyVal.str "N/A")

/-- A deal record renders without raising exactly when its close date
value is a string: line 256 slices `closedate[:10]`, which raises
`TypeError` on `None` and on numbers. -/
def dealSafe (r : Rec) : Bool :=
  match closedateOf r with
  | .str _ => true
  | _ => false

/-- The deals branch of the list renderer (lines 235 to 257), producing
the parts appended for one record; `Option.none` models the `TypeError`
raised by `closedate[:10]` on a non-string close date. -/
def renderDeal (i : Nat) (r : Rec) : Option (List String) :=
  let properties := r.properties
  let name := pyStr ((properties.lookup "dealname").getD (PyVal.str "Unnamed Deal"))
  let amount := (properties.lookup "amount").getD (PyVal.str "0")
  let stage0 := (properties.lookup "dealstage").getD (PyVal.str "N/A")
  let closedate := closedateOf r
  let stage :=
    match stage0 with
    | .str s => PyVal.str (stageLabel s)
    | _ => stage0
  let amount_str :=
    match pyFloat amount with
    | some q => "$" ++ fmtCommas2 q
    | Option.none => "N/A"
  let head := ["**" ++ toString i ++ ".** 🏷️ " ++ name,
               "   - 💵 Amount: " ++ amount_str,
               "   - 📊 Stage: " ++ pyStr stage]
  if closedate = PyVal.str "N/A" then some (head ++ [""])
  else
    match closedate with
    | .str s => some (head ++ ["   - 📅 Close Date: " ++ s.take 10, ""])
    | _ => Option.none

/-- The contacts branch of the list renderer (lines 259 to 270). -/
def renderContact (i : Nat) (r : Rec) : List String :=
  let properties := r.properties
  let first := (properties.lookup "firstname").getD (PyVal.str "")
  let last := (properties.lookup "lastname").getD (PyVal.str "")
  let email := (properties.lookup "email").getD (PyVal.str "N/A")
  let company := (properties.lookup "company").getD (PyVal.str "N/A")
  let joined := (pyStr first ++ " " ++ pyStr last).trim
  let name := if joined.isEmpty then "Unnamed Contact" else joined
  ["**" ++ toString i ++ ".** 👤 " ++ name,
   "   - 📧 Email: " ++ pyStr email] ++
  (if company = PyVal.str "N/A" then [] else ["   - 🏢 Company: " ++ pyStr company]) ++
  [""]

/-- The companies branch of the list renderer (lines 272 to 282). -/
def renderCompany (i : Nat) (r : Rec) : List String :=
  let properties := r.properties
  let name := (properties.lookup "name").getD (PyVal.str "Unnamed Company")
  let industry := (properties.lookup "industry").getD (PyVal.str "N/A")
  let domain := (properties.lookup "domain").getD (PyVal.str "N/A")
  ["**" ++ toString i ++ ".** 🏢 " ++ pyStr name] ++
  (if industry = PyVal.str "N/A" then [] else ["   - 🏭 Industry: " ++ pyStr industry]) ++
  (if domain = PyVal.str "N/A" then [] else ["   - 🌐 Domain: " ++ pyStr domain]) ++
  [""]

/-- Dispatch of the loop body on the object type; an unrecognized object
type appends nothing for the record. -/
def renderRecord (object_type : String) (i : Nat) (r : Rec) : Option (List String) :=
  if object_type = "deals" then renderDeal i r
  else if object_type = "contacts" then some (renderContact i r)
  else if object_type = "companies" then some (renderCompany i r)
  else some []

/-- The loop `for i, result in enumerate(results[:10], 1)` applied to a
record list with a starting index, keeping the parts of each record
grouped; `Option.none` models an exception raised inside the loop. -/
def renderFrom (object_type : String) (i : Nat) : List Rec → Option (List (List String))
  | [] => some []
  | r :: rs =>
      match renderRecord object_type i r with
      | Option.none => Option.none
      | some parts => (renderFrom object_type (i + 1) rs).map (fun L => parts :: L)

/-- The list branch of `format_response` (lines 229 to 287): header, the
parts of the first ten records, the omission note when more than ten
results exist, all joined with newlines. -/
def format_list (object_type : String) (results : List Rec) : Option String :=
  match renderFrom object_type 1 (results.take 10) with
  | Option.none => Option.none
  | some rendered =>
      some (String.intercalate "\n" (listHeader object_type results.length ::
        (rendered.flatten ++ (if 10 < results.length then [moreNote (results.length - 10)] else []))))

/-- Translation of `HubSpotChatbot.format_response` (lines 209 to 287).
`Option.none` models an exception escaping the function. -/
def format_response (data : ResultSet) (interpretation : QueryIntent) : Option String :=
  match data.error with
  | some e => some (errorLine e)
  | Option.none =>
      if data.results.isEmpty then some "🔍 I couldn't find any matching records."
      else
        let object_type := interpretation.object_type.getD "records"
        let summary_type := interpretation.summary_type.getD "list"
        if summary_type = "count" then some (countLine object_type data.results.length)
        else if summary_type = "total" ∧ object_type = "deals" then
          (totalAmount data.results).map (fun t => totalLine t data.results.length)
        else format_list object_type data.results

/-- Translation of `HubSpotChatbot.process_query` (lines 289 to 303): the
four stages in sequence.  The outcomes of the two external calls are the
`reply` and `transport` parameters. -/
def process_query (hubspot_api_key : String)
    (reply : Except String QueryIntent) (transport : Except String ResultSet) : Option String :=
  let interpretation := interpret_query reply
  let _request_config := build_api_request hubspot_api_key interpretation
  let data := fetch_hubspot_data transport
  format_response data interpretation

/-! ## Unfolding equations and helper lemmas -/

/-- Unfolding of `format_response` on a result set with no error key. -/
lemma format_response_ok (results : List Rec) (intent : QueryIntent) :
    format_response ⟨results, Option.none⟩ intent =
      if results.isEmpty then some "🔍 I couldn\x27t find any matching records."
      else if intent.summary_type.getD "list" = "count" then
        some (countLine (intent.object_type.getD "records") results.length)
      else if intent.summary_type.getD "list" = "total" ∧ intent.object_type.getD "records" = "deals" then
        (totalAmount results).map (fun t => totalLine t results.length)
      else format_list (intent.object_type.getD "records") results := rfl

/-- Unfolding of `format_response` on a result set carrying an error. -/
lemma format_response_error (results : List Rec) (e : String) (intent : QueryIntent) :
    format_response ⟨results, some e⟩ intent = some (errorLine e) := rfl

/-- A successful record loop renders one group per processed record. -/
lemma renderFrom_length (o : String) (i : Nat) (l : List Rec) (L : List (List String))
    (h : renderFrom o i l = some L) : L.length = l.length := by
  induction l generalizing i L with
  | nil =>
      simp only [renderFrom, Option.some.injEq] at h
      simp [← h]
  | cons r rs ih =>
      simp only [renderFrom] at h
      cases hr : renderRecord o i r with
      | none => rw [hr] at h; exact absurd h (by simp)
      | some parts =>
          rw [hr] at h
          cases hrec : renderFrom o (i + 1) rs with
          | none => rw [hrec] at h; exact absurd h (by simp)
          | some L' =>
              rw [hrec] at h
              have h' : parts :: L' = L := by simpa using h
              rw [← h']
              simp [ih (i + 1) L' hrec]

/-- The running sum succeeds from any accumulator when every summand
converts (float addition itself is total). -/
lemma totalAmountFrom_isSome (l : List Rec) (acc : PyFloat)
    (h : ∀ r ∈ l, (amountTerm r).isSome) : (totalAmountFrom acc l).isSome := by
  induction l generalizing acc with
  | nil => simp [totalAmountFrom]
  | cons r rs ih =>
      simp only [totalAmountFrom]
      cases ha : amountTerm r with
      | none =>
          have := h r (List.mem_cons_self r rs)
          rw [ha] at this
          exact absurd this (by simp)
      | some q =>
          exact ih (acc.add q) (fun x hx => h x (List.mem_cons_of_mem _ hx))

/-- The generator-sum succeeds when every summand converts. -/
lemma totalAmount_isSome (l : List Rec) (h : ∀ r ∈ l, (amountTerm r).isSome) :
    (totalAmount l).isSome :=
  totalAmountFrom_isSome l PyFloat.zero h

/-- A deal record renders when its close date value is a string. -/
lemma renderDeal_isSome (i : Nat) (r : Rec) (h : dealSafe r = true) :
    (renderDeal i r).isSome := by
  unfold dealSafe at h
  cases hc : closedateOf r with
  | str s =>
      simp only [renderDeal, hc]
      split
      · simp
      · simp
  | num q => rw [hc] at h; simp at h
  | null => rw [hc] at h; simp at h

/-- The loop body renders for every object type, provided deal records are
safe when the object type is deals. -/
lemma renderRecord_isSome (o : String) (i : Nat) (r : Rec)
    (h : o = "deals" → dealSafe r = true) : (renderRecord o i r).isSome := by
  unfold renderRecord
  by_cases h1 : o = "deals"
  · rw [if_pos h1]; exact renderDeal_isSome i r (h h1)
  · rw [if_neg h1]
    split
    · simp
    · split
      · simp
      · simp

/-- The record loop succeeds when each record in it renders. -/
lemma renderFrom_isSome (o : String) (i : Nat) (l : List Rec)
    (h : ∀ r ∈ l, o = "deals" → dealSafe r = true) : (renderFrom o i l).isSome := by
  induction l generalizing i with
  | nil => simp [renderFrom]
  | cons r rs ih =>
      simp only [renderFrom]
      have h1 := renderRecord_isSome o i r (h r (List.mem_cons_self r rs))
      cases hr : renderRecord o i r with
      | none => rw [hr] at h1; exact absurd h1 (by simp)
      | some parts =>
          have h2 := ih (i + 1) (fun x hx hd => h x (List.mem_cons_of_mem _ hx) hd)
          cases hrec : renderFrom o (i + 1) rs with
          | none => rw [hrec] at h2; exact absurd h2 (by simp)
          | some L' => simp [hrec]

/-- The formatter produces text whenever the total branch can convert
every amount and the deals list branch only meets string close dates. -/
lemma format_response_isSome (data : ResultSet) (intent : QueryIntent)
    (hTot : intent.summary_type.getD "list" = "total" →
      intent.object_type.getD "records" = "deals" →
      ∀ r ∈ data.results, (amountTerm r).isSome)
    (hList : intent.object_type.getD "records" = "deals" →
      intent.summary_type.getD "list" ≠ "total" →
      intent.summary_type.getD "list" ≠ "count" →
      ∀ r ∈ data.results.take 10, dealSafe r = true) :
    (format_response data intent).isSome := by
  obtain ⟨results, err⟩ := data
  cases err with
  | some e => rw [format_response_error]; simp
  | none =>
      rw [format_response_ok]
      by_cases hE : results.isEmpty
      · rw [if_pos hE]; simp
      · rw [if_neg hE]
        by_cases hc : intent.summary_type.getD "list" = "count"
        · rw [if_pos hc]; simp
        · rw [if_neg hc]
          by_cases ht : intent.summary_type.getD "list" = "total" ∧
              intent.object_type.getD "records" = "deals"
          · rw [if_pos ht]
            have hs := totalAmount_isSome results (hTot ht.1 ht.2)
            cases h' : totalAmount results with
            | none => rw [h'] at hs; exact absurd hs (by simp)
            | some t => simp [h']
          · rw [if_neg ht]
            by_cases ho : intent.object_type.getD "records" = "deals"
            · have hs : intent.summary_type.getD "list" ≠ "total" := fun hh => ht ⟨hh, ho⟩
              have h10 := hList ho hs hc
              have hr := renderFrom_isSome (intent.object_type.getD "records") 1
                (results.take 10) (fun r hrr _ => h10 r hrr)
              unfold format_list
              cases hre : renderFrom (intent.object_type.getD "records") 1 (results.take 10) with
              | none => rw [hre] at hr; exact absurd hr (by simp)
              | some L => simp
            · have hr := renderFrom_isSome (intent.object_type.getD "records") 1
                (results.take 10) (fun r _ hd => absurd hd ho)
              unfold format_list
              cases hre : renderFrom (intent.object_type.getD "records") 1 (results.take 10) with
              | none => rw [hre] at hr; exact absurd hr (by simp)
              | some L => simp

/-- Unfolding of the list branch once the record loop has succeeded. -/
lemma format_list_eq_of (o : String) (results : List Rec) (L : List (List String))
    (h : renderFrom o 1 (results.take 10) = some L) :
    format_list o results = some (String.intercalate "\n" (listHeader o results.length ::
      (L.flatten ++ (if 10 < results.length then [moreNote (results.length - 10)] else [])))) := by
  unfold format_list
  rw [h]

/-! ## Concrete inputs shared by several claims -/

/-- A deals intent in list mode, all other fields absent. -/
def listDealsIntent : QueryIntent :=
  ⟨some "deals", Option.none, Option.none, Option.none, some "list"⟩

/-- A deals intent in total mode, all other fields absent. -/
def totalDealsIntent : QueryIntent :=
  ⟨some "deals", Option.none, Option.none, Option.none, some "total"⟩

/-! ## C1 -/

/-- C1 counterexample: the formatter raises.  A deal record whose
`closedate` property is present but null reaches line 256
(`closedate[:10]`), which raises `TypeError`; the exception leaves
`format_response`, so the claim that format always returns text for every
Result Set and Query Intent is false. -/
theorem C1_counterexample :
    format_response ⟨[Rec.mk [("closedate", PyVal.null)]], Option.none⟩ listDealsIntent =
      Option.none := rfl

/-- C1 (amended): the interpret, build and fetch stages are total, and the
whole pipeline returns text for every outcome of the two external calls,
provided that in total mode every amount value converts to a number and
that in deals list mode the first ten records carry string close dates.
Without those provisos a `ValueError` (line 226) or `TypeError` (line 256)
escapes the formatter. -/
theorem C1_pipeline_returns_text (hubspot_api_key : String)
    (reply : Except String QueryIntent) (transport : Except String ResultSet)
    (hTot : (interpret_query reply).summary_type.getD "list" = "total" →
      (interpret_query reply).object_type.getD "records" = "deals" →
      ∀ r ∈ (fetch_hubspot_data transport).results, (amountTerm r).isSome)
    (hList : (interpret_query reply).object_type.getD "records" = "deals" →
      (interpret_query reply).summary_type.getD "list" ≠ "total" →
      (interpret_query reply).summary_type.getD "list" ≠ "count" →
      ∀ r ∈ (fetch_hubspot_data transport).results.take 10, dealSafe r = true) :
    (process_query hubspot_api_key reply transport).isSome := by
  show (format_response (fetch_hubspot_data transport) (interpret_query reply)).isSome
  exact format_response_isSome _ _ hTot hList

/-- C1 witness: the pipeline produces text on a concrete run with a failed
interpretation call and one empty deal record. -/
theorem C1_pipeline_returns_text_witness :
    (process_query "key" (Except.error "service down")
      (Except.ok ⟨[Rec.mk []], Option.none⟩)).isSome :=
  C1_pipeline_returns_text "key" (Except.error "service down")
    (Except.ok ⟨[Rec.mk []], Option.none⟩) (by decide) (by decide)

/-! ## C2 -/

/-- C2 counterexample: a truthy non-numeric amount is not treated as 0; it
makes `float` raise in the total branch (line 226), so the output is an
escaped exception rather than a total line. -/
theorem C2_counterexample :
    format_response ⟨[Rec.mk [("amount", PyVal.str "abc")]], Option.none⟩ totalDealsIntent =
      Option.none := rfl

/-- C2 (amended): in total mode for deals, when every amount value
converts (missing, null and empty amounts count as 0 through the
`.get(..., 0) or 0` defaulting), the output is one line with the sum
rendered as currency with two decimal places and thousands separators,
together with the result count.  Truthy non-numeric amounts instead raise,
as the counterexample shows. -/
theorem C2_total_line_sums_amounts (results : List Rec) (intent : QueryIntent) (t : PyFloat)
    (hst : intent.summary_type = some "total")
    (hot : intent.object_type = some "deals")
    (hne : results ≠ [])
    (hA : totalAmount results = some t) :
    format_response ⟨results, Option.none⟩ intent = some (totalLine t results.length) := by
  obtain _ | ⟨a, l⟩ := results
  · exact absurd rfl hne
  · rw [format_response_ok]
    simp [hst, hot, hA]

/-- C2 witness: the worked example of the specification, with amounts
`"100.50"`, null and `"49.5"`, totals `$150.00` across 3 deals. -/
theorem C2_total_line_sums_amounts_witness :
    format_response ⟨[Rec.mk [("amount", PyVal.str "100.50")],
                      Rec.mk [("amount", PyVal.null)],
                      Rec.mk [("amount", PyVal.str "49.5")]], Option.none⟩ totalDealsIntent =
      some "💰 Total deal value: **$150.00** across 3 deals" :=
  (C2_total_line_sums_amounts
    [Rec.mk [("amount", PyVal.str "100.50")],
     Rec.mk [("amount", PyVal.null)],
     Rec.mk [("amount", PyVal.str "49.5")]]
    totalDealsIntent (PyFloat.finite false 5277655813324800 (-45)) rfl rfl (by decide) (by decide)).trans (by decide)

/-! ## C3 -/

/-- C3 counterexample: a requested limit of 0 is passed through unclamped,
so the built limit parameter is 0, outside the claimed interval [1, 100]. -/
theorem C3_counterexample :
    (build_api_request "key" ⟨Option.none, Option.none, Option.none, some 0, Option.none⟩).params.limit = 0 ∧
    ¬(1 ≤ (build_api_request "key" ⟨Option.none, Option.none, Option.none, some 0, Option.none⟩).params.limit) := by
  decide

/-- C3 (amended): the built limit is `min(requested, 100)` with default 10
when absent: it never exceeds 100, an absent limit yields 10, a limit
above 100 yields exactly 100, and a limit at most 100 — including values
below 1 — is passed through unchanged, with no lower clamp. -/
theorem C3_limit_clamped_above_only (hubspot_api_key : String) (intent : QueryIntent) :
    (build_api_request hubspot_api_key intent).params.limit ≤ 100 ∧
    (intent.limit = Option.none → (build_api_request hubspot_api_key intent).params.limit = 10) ∧
    (∀ l : Int, intent.limit = some l → 100 < l →
      (build_api_request hubspot_api_key intent).params.limit = 100) ∧
    (∀ l : Int, intent.limit = some l → l ≤ 100 →
      (build_api_request hubspot_api_key intent).params.limit = l) := by
  have hb : (build_api_request hubspot_api_key intent).params.limit =
      min (intent.limit.getD 10) 100 := rfl
  refine ⟨?_, ?_, ?_, ?_⟩
  · rw [hb]; exact min_le_right _ _
  · intro h0; rw [hb, h0]; decide
  · intro l hl hlt; rw [hb, hl]; simp only [Option.getD_some]; exact min_eq_right hlt.le
  · intro l hl hle; rw [hb, hl]; simp only [Option.getD_some]; exact min_eq_left hle

/-- C3 witness: a requested limit of 250 is clamped to 100. -/
theorem C3_limit_clamped_above_only_witness :
    (build_api_request "key" ⟨Option.none, Option.none, Option.none, some 250, Option.none⟩).params.limit = 100 :=
  (C3_limit_clamped_above_only "key"
    ⟨Option.none, Option.none, Option.none, some 250, Option.none⟩).2.2.1 250 rfl (by norm_num)

/-! ## C4 -/

/-- The interpretation dictionary with every key absent. -/
def emptyIntent : QueryIntent :=
  ⟨Option.none, Option.none, Option.none, Option.none, Option.none⟩

/-- C4 counterexample: on a successful reply the interpreter performs no
default substitution at all — `json.loads` output is returned verbatim
(line 137), so a reply with no keys yields an Intent with every field
absent, not one with all five fields populated. -/
theorem C4_counterexample :
    interpret_query (Except.ok emptyIntent) = emptyIntent ∧
    (interpret_query (Except.ok emptyIntent)).object_type = Option.none ∧
    (interpret_query (Except.ok emptyIntent)).filters = Option.none ∧
    (interpret_query (Except.ok emptyIntent)).properties = Option.none ∧
    (interpret_query (Except.ok emptyIntent)).limit = Option.none ∧
    (interpret_query (Except.ok emptyIntent)).summary_type = Option.none := by
  decide

/-- C4 (amended): the interpreter returns the parsed service reply
verbatim; the defaults of the claim are supplied downstream at each
consumption site instead.  For the all-absent reply, the request builder
uses object type deals, limit 10 and the first three default deal
properties with no filter parameter, and the formatter renders in list
mode under the generic object label. -/
theorem C4_defaults_applied_downstream :
    (∀ j : QueryIntent, interpret_query (Except.ok j) = j) ∧
    ((build_api_request "key" emptyIntent).url = "https://api.hubapi.com/crm/v3/objects/deals" ∧
     (build_api_request "key" emptyIntent).params.limit = 10 ∧
     (build_api_request "key" emptyIntent).params.properties = "dealname,amount,dealstage" ∧
     (build_api_request "key" emptyIntent).params.filterGroups = Option.none) ∧
    format_response ⟨[Rec.mk []], Option.none⟩ emptyIntent = some (listHeader "records" 1) := by
  refine ⟨fun j => rfl, by decide, rfl⟩

/-! ## C5 -/

/-- C5: every failure of the external interpretation call (service error,
malformed or non-JSON reply, parse error) is caught and produces exactly
the fallback Intent with object type deals, empty filters, properties
dealname and amount, limit 10 and summary type list (lines 138 to 146). -/
theorem C5_interpret_fallback_on_failure (e : String) :
    interpret_query (Except.error e) =
      ⟨some "deals", some [], some ["dealname", "amount"], some 10, some "list"⟩ := rfl

/-! ## C6 -/

/-- C6: a transport failure makes the fetcher return a Result Set with
empty results and the failure detail in the error field rather than
raising (lines 205 to 207), and the formatter turns that Result Set into
the single error line (lines 211 to 212) without raising. -/
theorem C6_fetch_failure_formats_error_line (e : String) (intent : QueryIntent)
    (h1 : e ≠ "") (h2 : '\n' ∉ e.data) :
    fetch_hubspot_data (Except.error e) = ⟨[], some e⟩ ∧
    (fetch_hubspot_data (Except.error e)).error ≠ some "" ∧
    format_response (fetch_hubspot_data (Except.error e)) intent = some (errorLine e) ∧
    '\n' ∉ (errorLine e).data := by
  refine ⟨rfl, ?_, rfl, ?_⟩
  · intro hc
    exact h1 (Option.some.inj hc)
  · have hd : (errorLine e).data = ("❌ Sorry, I encountered an error: ").data ++ e.data := rfl
    rw [hd]
    intro hm
    rcases List.mem_append.mp hm with h | h
    · exact absurd h (by decide)
    · exact h2 h

/-- C6 witness: a concrete transport failure. -/
theorem C6_fetch_failure_formats_error_line_witness :
    fetch_hubspot_data (Except.error "boom") = ⟨[], some "boom"⟩ ∧
    format_response (fetch_hubspot_data (Except.error "boom")) fallback_intent =
      some (errorLine "boom") :=
  ⟨(C6_fetch_failure_formats_error_line "boom" fallback_intent (by decide) (by decide)).1,
   (C6_fetch_failure_formats_error_line "boom" fallback_intent (by decide) (by decide)).2.2.1⟩

/-! ## C7 -/

/-- The stage resolution returns the internal key of a matched pair. -/
lemma resolveStage_eq_of (v : String) (p : String × String)
    (h : stageMatch (strLower v) = some p) : resolveStage v = p.1 := by
  unfold resolveStage
  rw [h]

/-- C7: for each of the seven declared stage pairs, the dealstage filter
translation maps the display label, in any letter case, to the internal
code, and the formatter maps the code back to the label. -/
theorem C7_stage_round_trip (code label v : String)
    (hmem : (code, label) ∈ deal_stages) (hv : strLower v = strLower label) :
    resolveStage v = code ∧ stageLabel code = label := by
  simp only [deal_stages, List.mem_cons, List.not_mem_nil, or_false, Prod.mk.injEq] at hmem
  rcases hmem with ⟨rfl, rfl⟩ | ⟨rfl, rfl⟩ | ⟨rfl, rfl⟩ | ⟨rfl, rfl⟩ | ⟨rfl, rfl⟩ | ⟨rfl, rfl⟩ | ⟨rfl, rfl⟩
  · exact ⟨resolveStage_eq_of v ("appointmentscheduled", "Appointment Scheduled")
      (by rw [hv]; decide), by decide⟩
  · exact ⟨resolveStage_eq_of v ("qualifiedtobuy", "Qualified to Buy")
      (by rw [hv]; decide), by decide⟩
  · exact ⟨resolveStage_eq_of v ("presentationscheduled", "Presentation Scheduled")
      (by rw [hv]; decide), by decide⟩
  · exact ⟨resolveStage_eq_of v ("decisionmakerboughtin", "Decision Maker Bought-In")
      (by rw [hv]; decide), by decide⟩
  · exact ⟨resolveStage_eq_of v ("contractsent", "Contract Sent")
      (by rw [hv]; decide), by decide⟩
  · exact ⟨resolveStage_eq_of v ("closedwon", "Closed Won")
      (by rw [hv]; decide), by decide⟩
  · exact ⟨resolveStage_eq_of v ("closedlost", "Closed Lost")
      (by rw [hv]; decide), by decide⟩

/-- C7 witness: the label Closed Won in upper case resolves to its code,
and the code formats back to the label. -/
theorem C7_stage_round_trip_witness :
    resolveStage "CLOSED WON" = "closedwon" ∧ stageLabel "closedwon" = "Closed Won" :=
  C7_stage_round_trip "closedwon" "Closed Won" "CLOSED WON" (by decide) (by decide)

/-! ## C8 -/

/-- C8 counterexample: a present but empty properties list is not replaced
by the default properties — `dict.get` only substitutes the default when
the key is absent — so the built properties parameter is the empty string,
not the join of the first three default deal properties. -/
theorem C8_counterexample :
    (build_api_request "key" ⟨some "deals", Option.none, some [], Option.none, Option.none⟩).params.properties = "" ∧
    "" ≠ "dealname,amount,dealstage" := by
  decide

/-- C8 (amended): the built properties parameter is the comma join of the
Intent properties whenever that key is present — including present and
empty, which joins to the empty string — and the comma join of the first
three default properties of the resolved catalog entry only when the key
is absent. -/
theorem C8_properties_join (hubspot_api_key : String) (intent : QueryIntent) :
    (∀ ps, intent.properties = some ps →
      (build_api_request hubspot_api_key intent).params.properties = String.intercalate "," ps) ∧
    (intent.properties = Option.none →
      (build_api_request hubspot_api_key intent).params.properties =
        String.intercalate ","
          (((available_endpoints.lookup (intent.object_type.getD "deals")).getD dealsEndpoint).properties.take 3)) := by
  have hb : (build_api_request hubspot_api_key intent).params.properties =
      String.intercalate "," (intent.properties.getD
        (((available_endpoints.lookup (intent.object_type.getD "deals")).getD dealsEndpoint).properties.take 3)) := rfl
  constructor
  · intro ps hps
    rw [hb, hps]
    exact rfl
  · intro h0
    rw [hb, h0]
    exact rfl

/-- C8 witness: a present two-element properties list joins with commas. -/
theorem C8_properties_join_witness :
    (build_api_request "key" ⟨some "contacts", Option.none, some ["email", "phone"], Option.none, Option.none⟩).params.properties = "email,phone" :=
  ((C8_properties_join "key"
    ⟨some "contacts", Option.none, some ["email", "phone"], Option.none, Option.none⟩).1
    ["email", "phone"] rfl).trans (by decide)

/-! ## C9 -/

/-- C9: on every result list that reaches the list branch — any object
type, with the summary type absent, "list" or unrecognized, or "total"
with a non-deals object type — the formatter renders exactly the first
ten results, one group of parts per record taken from `results[:10]`
(line 232), and, when more than ten results exist, appends the trailing
note with the number of omitted results (lines 284 to 285). -/
theorem C9_list_caps_at_ten (results : List Rec) (intent : QueryIntent)
    (L : List (List String))
    (hne : results ≠ [])
    (hc : intent.summary_type.getD "list" ≠ "count")
    (ht : ¬(intent.summary_type.getD "list" = "total" ∧ intent.object_type.getD "records" = "deals"))
    (hL : renderFrom (intent.object_type.getD "records") 1 (results.take 10) = some L) :
    L.length = min 10 results.length ∧
    format_response ⟨results, Option.none⟩ intent =
      some (String.intercalate "\n" (listHeader (intent.object_type.getD "records") results.length ::
        (L.flatten ++ (if 10 < results.length then [moreNote (results.length - 10)] else [])))) := by
  constructor
  · have h1 := renderFrom_length (intent.object_type.getD "records") 1 (results.take 10) L hL
    rw [h1, List.length_take]
  · obtain _ | ⟨a, l⟩ := results
    · exact absurd rfl hne
    · rw [format_response_ok]
      rw [if_neg (by simp : ¬((a :: l).isEmpty = true))]
      rw [if_neg hc]
      rw [if_neg ht]
      exact format_list_eq_of (intent.object_type.getD "records") (a :: l) L hL

/-- Fifteen records with no properties, as in the list-cap test of the
specification. -/
def rs15 : List Rec := List.replicate 15 (Rec.mk [])

/-- The parts rendered for one empty deal record at a given position. -/
def emptyDealBlock (i : Nat) : List String :=
  ["**" ++ toString i ++ ".** 🏷️ Unnamed Deal", "   - 💵 Amount: $0.00", "   - 📊 Stage: N/A", ""]

/-- The ten record groups rendered from `rs15`. -/
def L15 : List (List String) :=
  [emptyDealBlock 1, emptyDealBlock 2, emptyDealBlock 3, emptyDealBlock 4, emptyDealBlock 5,
   emptyDealBlock 6, emptyDealBlock 7, emptyDealBlock 8, emptyDealBlock 9, emptyDealBlock 10]

/-- C9 witness: fifteen deal results render as the ten first records plus
the note that five more were omitted. -/
theorem C9_list_caps_at_ten_witness :
    format_response ⟨rs15, Option.none⟩ listDealsIntent =
      some (String.intercalate "\n" (listHeader "deals" rs15.length ::
        (L15.flatten ++ (if 10 < rs15.length then [moreNote (rs15.length - 10)] else [])))) :=
  (C9_list_caps_at_ten rs15 listDealsIntent L15 (by decide) (by decide) (by decide) (by decide)).2

/-! ## C10 -/

/-- A deal record with no amount key at all. -/
def recNoAmount : Rec := ⟨[("dealname", PyVal.str "Alpha")]⟩

/-- A deal record whose amount key is present but null. -/
def recNullAmount : Rec := ⟨[("dealname", PyVal.str "Beta"), ("amount", PyVal.null)]⟩

/-- C10: in deals list rendering an absent amount defaults to the string
`"0"` and displays as `$0.00` (line 237), while a present null amount
makes `float` raise `TypeError`, which the bare except turns into `N/A`
(lines 246 to 250) — absent and null amounts are displayed differently. -/
theorem C10_absent_vs_null_amount :
    renderDeal 1 recNoAmount =
      some ["**1.** 🏷️ Alpha", "   - 💵 Amount: $0.00", "   - 📊 Stage: N/A", ""] ∧
    renderDeal 2 recNullAmount =
      some ["**2.** 🏷️ Beta", "   - 💵 Amount: N/A", "   - 📊 Stage: N/A", ""] ∧
    format_response ⟨[recNoAmount, recNullAmount], Option.none⟩ listDealsIntent =
      some "📋 I found **2 deals**:\n\n**1.** 🏷️ Alpha\n   - 💵 Amount: $0.00\n   - 📊 Stage: N/A\n\n**2.** 🏷️ Beta\n   - 💵 Amount: N/A\n   - 📊 Stage: N/A\n" := by
  refine ⟨rfl, rfl, rfl⟩
